import Mathlib

/-!
# Verification of the SkyPilot agent remote-job lifecycle tracker

Shallow embedding of `plugins/flytekit-skypilot/flytekitplugins/skypilot/agent.py`:
the task lifecycle controller (`SkyTaskFuture`), the process-wide tracker
(`SkyTaskTracker`), the launch-worker supervision (`WrappedProcess` /
`BlockingProcessHandler.status_poller`), the liveness check
(`check_remote_agent_alive`) and the agent entry points (`SkyPilotAgent.get`,
`SkyPilotAgent.delete`).

The helper module `flytekitplugins/skypilot/utils.py` (path settings, the
`TaskStatus` and `EventHandler` types, the status mapping tables) and
`metadata.py` are not part of the sources at hand; the definitions taken from
them are modelled from the specification and marked as such in their doc
comments.  Everything else is translated directly from `agent.py`.
-/

namespace SkyAgent

/-- Modelled from the spec: `JobLaunchType` (metadata.py is absent).
One of MANAGED or INTERACTIVE, determining provisioner API and path layout. -/
inductive JobLaunchType
  | MANAGED
  | INTERACTIVE
deriving DecidableEq

/-- Modelled from the spec: `TaskStatus` enum from utils.py (absent):
{INIT, LAUNCHING, RUNNING, DONE}. -/
inductive TaskStatus
  | INIT
  | LAUNCHING
  | RUNNING
  | DONE
deriving DecidableEq

/-- Modelled from the spec: `EventHandler` from utils.py (absent): a set of
independent binary signals {launch_done, failed, cancel, finished}. -/
structure EventHandler where
  launch_done : Bool
  failed : Bool
  cancel : Bool
  finished : Bool
deriving DecidableEq

/-- Modelled from the spec: "Terminal" means any of {failed, cancel, finished}
is set (launch_done is not a terminal signal). -/
def EventHandler.is_terminal (e : EventHandler) : Bool :=
  e.failed || e.cancel || e.finished

/-- A fresh event handler with no signal set. -/
def EventHandler.fresh : EventHandler :=
  { launch_done := false, failed := false, cancel := false, finished := false }

/-- The fields of a `TaskTemplate` that `agent.py` reads
(`task_template.custom` entries and the output path root). -/
structure TaskTemplate where
  task_name : String
  cluster_name : String
  job_launch_type : JobLaunchType
  raw_output_root : String
deriving DecidableEq

/-- `sky.jobs.utils.JOB_CONTROLLER_NAME` (constant of the external
provisioning library, used verbatim in `SkyTaskFuture.__init__`). -/
def JOB_CONTROLLER_NAME : String := "sky-jobs-controller"

/-- Modelled from the spec: `TaskRemotePathSetting.from_task_prefix`
(utils.py is absent) derives the per-task name deterministically from the
template's task name (§6: paths are deterministic functions of the identity). -/
def task_name_of (tpl : TaskTemplate) : String :=
  tpl.task_name

/-- Modelled from the spec: the task's unique id in the Remote Path Registry is
a deterministic function of {cluster_name, task_name, job_launch_type} (§4.1, §6). -/
def unique_id_of (tpl : TaskTemplate) : String :=
  (match tpl.job_launch_type with
   | JobLaunchType.MANAGED => "managed/" ++ JOB_CONTROLLER_NAME
   | JobLaunchType.INTERACTIVE => "interactive/" ++ tpl.cluster_name)
  ++ "/" ++ tpl.task_name

/-- State of one `SkyTaskFuture` (the task lifecycle controller).  The
coroutine handles `_launch_coro`, `_status_check_coro`, `_status_upload_coro`
are modelled as creation flags; `_cancel_callback` as a presence flag;
`put_error_log` calls are counted in `error_logs`. -/
structure SkyTaskFuture where
  task_template : TaskTemplate
  task_name : String
  cluster_name : String
  unique_id : String
  task_status : TaskStatus
  event_handler : EventHandler
  has_cancel_callback : Bool
  launch_coro_created : Bool
  status_check_coro_created : Bool
  status_upload_coro_created : Bool
  error_logs : Nat
deriving DecidableEq

/-- `SkyTaskFuture.__init__`: resolves the cluster name (the managed-jobs
controller cluster for MANAGED, the template's cluster otherwise), builds the
path setting, and leaves the class-level defaults in place: status INIT, no
event handler signals, no coroutines, no callback. -/
def SkyTaskFuture.init (tpl : TaskTemplate) : SkyTaskFuture :=
  let cluster :=
    if tpl.job_launch_type = JobLaunchType.MANAGED then JOB_CONTROLLER_NAME
    else tpl.cluster_name
  { task_template := tpl
  , task_name := task_name_of tpl
  , cluster_name := cluster
  , unique_id := unique_id_of tpl
  , task_status := TaskStatus.INIT
  , event_handler := EventHandler.fresh
  , has_cancel_callback := false
  , launch_coro_created := false
  , status_check_coro_created := false
  , status_upload_coro_created := false
  , error_logs := 0 }

/-- `SkyTaskFuture.start`: records the cancel callback, installs a fresh
`EventHandler`, and creates the three supervised coroutines (launch worker
poller, deletion-status poller, status-upload loop).  Note: `start` does not
assign `_task_status`. -/
def SkyTaskFuture.start (f : SkyTaskFuture) (has_callback : Bool) : SkyTaskFuture :=
  { f with
    has_cancel_callback := has_callback
  , event_handler := EventHandler.fresh
  , launch_coro_created := true
  , status_check_coro_created := true
  , status_upload_coro_created := true }

/-- `SkyTaskFuture.cancel`: sets the cancel signal. -/
def SkyTaskFuture.cancel (f : SkyTaskFuture) : SkyTaskFuture :=
  { f with event_handler := { f.event_handler with cancel := true } }

/-- How a supervised coroutine finished, as observed by its done-callback
(`launch_failed_callback`): it raised an exception, it was cancelled, or it
returned normally. -/
inductive CoroOutcome
  | raised
  | cancelled
  | normal
deriving DecidableEq

/-- The signal writes performed by the body of `launch_failed_callback`:
an exception sets `failed`; a cancelled coroutine sets `cancel`; a normal
exit sets `finished` only when `cancel_on_done` is true. -/
def stepEvents (e : EventHandler) : CoroOutcome → Bool → EventHandler
  | CoroOutcome.raised, _ => { e with failed := true }
  | CoroOutcome.cancelled, _ => { e with cancel := true }
  | CoroOutcome.normal, c => if c then { e with finished := true } else e

/-- Whether one done-callback invocation introduces a terminal signal by
itself (exception, cancellation, or normal exit with `cancel_on_done`). -/
def terminalStep : CoroOutcome × Bool → Bool
  | (CoroOutcome.raised, _) => true
  | (CoroOutcome.cancelled, _) => true
  | (CoroOutcome.normal, c) => c

/-- Number of `put_error_log` writes after a coroutine finished: the
exception branch writes the formatted traceback. -/
def logWrites (n : Nat) : CoroOutcome → Nat
  | CoroOutcome.raised => n + 1
  | _ => n

/-- `SkyTaskFuture.launch_failed_callback`: writes the error log and signal
for the finished coroutine, then — in the `finally` block — performs the
check-and-set: if `_task_status` is still INIT and the event handler is
terminal, moves the status to DONE and fires the registered teardown
callback.  Returns the updated controller and whether the teardown callback
fired on this invocation. -/
def launch_failed_callback (f : SkyTaskFuture) (outcome : CoroOutcome)
    (cancel_on_done : Bool) : SkyTaskFuture × Bool :=
  if f.task_status = TaskStatus.INIT
      ∧ (stepEvents f.event_handler outcome cancel_on_done).is_terminal = true then
    ({ f with
       event_handler := stepEvents f.event_handler outcome cancel_on_done
     , error_logs := logWrites f.error_logs outcome
     , task_status := TaskStatus.DONE }
    , f.has_cancel_callback)
  else
    ({ f with
       event_handler := stepEvents f.event_handler outcome cancel_on_done
     , error_logs := logWrites f.error_logs outcome }
    , false)

/-- Run a sequence of done-callback invocations against a controller,
counting how many times the teardown callback fired. -/
def runCallbacks : SkyTaskFuture → List (CoroOutcome × Bool) → SkyTaskFuture × Nat
  | f, [] => (f, 0)
  | f, step :: rest =>
    ((runCallbacks (launch_failed_callback f step.1 step.2).1 rest).1
    , (if (launch_failed_callback f step.1 step.2).2 then 1 else 0)
      + (runCallbacks (launch_failed_callback f step.1 step.2).1 rest).2)

/-- Modelled from the spec: the Remote Path Registry's per-task touch markers
(utils.py is absent).  `touched` is the set of task ids whose touch marker
exists in the object store. -/
structure RemotePathRegistry where
  touched : List String
deriving DecidableEq

/-- Modelled from the spec: `touch_task(id)` — idempotent, creates the marker
if absent (§4.1). -/
def touch_task (r : RemotePathRegistry) (id : String) : RemotePathRegistry :=
  if id ∈ r.touched then r else { touched := id :: r.touched }

/-- Modelled from the spec: `task_exists(id) -> bool` — whether the touch
marker exists (§4.1). -/
def task_exists (r : RemotePathRegistry) (id : String) : Bool :=
  decide (id ∈ r.touched)

/-- Modelled from the spec: `delete_task(id)` — idempotent removal of the
markers (§4.1). -/
def delete_task (r : RemotePathRegistry) (id : String) : RemotePathRegistry :=
  { touched := r.touched.filter (fun x => decide (x ≠ id)) }

/-- Process-wide state of `SkyTaskTracker`: the `_JOB_RESIGTRY` table keyed by
task name, the Remote Path Registry reachable through `_sky_path_setting`,
whether the zip-and-upload coroutine was created (`try_first_register`), the
clusters on which `sky.stop` was invoked, and the count of logged warnings for
unsupported deprovisioning. -/
structure TrackerState where
  job_registry : List (String × SkyTaskFuture)
  remote : RemotePathRegistry
  zip_started : Bool
  stops : List String
  warnings : Nat
deriving DecidableEq

/-- `SkyTaskTracker.try_first_register`: returns immediately when the job
registry is non-empty; otherwise sets up the path setting and creates the
zip-and-upload coroutine. -/
def try_first_register (s : TrackerState) : TrackerState :=
  if s.job_registry.isEmpty then { s with zip_started := true } else s

/-- `SkyTaskTracker.register_sky_task`: runs the first-registration setup,
constructs a `SkyTaskFuture` from the template, and checks the Remote Path
Registry.  If the task id already exists it returns the new controller
unstarted and unindexed; otherwise it touches the marker, starts the
controller with the teardown callback installed, and indexes it. -/
def register_sky_task (s : TrackerState) (tpl : TaskTemplate) :
    TrackerState × SkyTaskFuture :=
  if task_exists (try_first_register s).remote (SkyTaskFuture.init tpl).unique_id then
    (try_first_register s, SkyTaskFuture.init tpl)
  else
    ({ try_first_register s with
       remote := touch_task (try_first_register s).remote (SkyTaskFuture.init tpl).unique_id
     , job_registry :=
         (((SkyTaskFuture.init tpl).start true).task_name
         , (SkyTaskFuture.init tpl).start true)
           :: (try_first_register s).job_registry }
    , (SkyTaskFuture.init tpl).start true)

/-- Outcome of the external `sky.stop` call: success, the provider-specific
`NotSupportedError`, or any other exception. -/
inductive StopResult
  | ok
  | notSupported
  | otherError (msg : String)
deriving DecidableEq

/-- The `running_tasks_on_cluster` filter in `on_task_deleted`: registry
entries whose status is INIT and whose cluster matches the deleted task's. -/
def running_on_cluster (s : TrackerState) (deleted : SkyTaskFuture) :
    List (String × SkyTaskFuture) :=
  s.job_registry.filter
    (fun p =>
      decide (p.2.task_status = TaskStatus.INIT
        ∧ p.2.cluster_name = deleted.cluster_name))

/-- `SkyTaskTracker.on_task_deleted`: scans the registry for other controllers
on the deleted task's cluster still in status INIT; if none remain, calls
`sky.stop` on the cluster (catching only `NotSupportedError`, which is logged
as a warning); finally deletes the task's entry in the Remote Path Registry.
Exceptions other than `NotSupportedError` propagate (and skip the deletion).
The `stop` parameter models the behaviour of the external `sky.stop` call. -/
def on_task_deleted (stop : String → StopResult) (s : TrackerState)
    (deleted : SkyTaskFuture) : Except String TrackerState :=
  let afterStop : Except String TrackerState :=
    if (running_on_cluster s deleted).isEmpty then
      let s1 := { s with stops := deleted.cluster_name :: s.stops }
      match stop deleted.cluster_name with
      | StopResult.ok => Except.ok s1
      | StopResult.notSupported => Except.ok { s1 with warnings := s1.warnings + 1 }
      | StopResult.otherError msg => Except.error msg
    else Except.ok s
  afterStop.map
    (fun s2 => { s2 with remote := delete_task s2.remote deleted.unique_id })

/-- Which code path `SkyPilotAgent.delete` takes. -/
inductive DeletePath
  | remote_deletion
  | cancel_in_process
deriving DecidableEq

/-- `SkyPilotAgent.delete`: if the job name is not in the tracker's registry,
performs out-of-band remote deletion; otherwise cancels the in-process
controller (sets its cancel signal). -/
def agent_delete (s : TrackerState) (job_name : String) :
    DeletePath × TrackerState :=
  if (s.job_registry.lookup job_name).isSome then
    (DeletePath.cancel_in_process
    , { s with
        job_registry := s.job_registry.map
          (fun p => if p.1 = job_name then (p.1, p.2.cancel) else p) })
  else
    (DeletePath.remote_deletion, s)

/-- Reflect the done-callback's in-place `_task_status = DONE` write on the
shared controller object into the registry entry of the same name. -/
def mark_done (s : TrackerState) (name : String) : TrackerState :=
  { s with
    job_registry := s.job_registry.map
      (fun p =>
        if p.1 = name then (p.1, { p.2 with task_status := TaskStatus.DONE })
        else p) }

/-- `sky.skylet.constants.CONTROLLER_IDLE_MINUTES_TO_AUTOSTOP` (constant of
the external provisioning library; the spec fixes the resulting staleness
threshold at 600 seconds, i.e. 10 minutes). -/
def CONTROLLER_IDLE_MINUTES_TO_AUTOSTOP : Int := 10

/-- `check_remote_agent_alive`: compares `now - last_upload_time` (seconds)
against the autostop threshold; stale means dead.  When no upload time was
ever recorded (`None`), the checks are skipped and the function returns
True. -/
def check_remote_agent_alive (now : Int) (last_upload_time : Option Int) : Bool :=
  match last_upload_time with
  | some t =>
    if now - t > CONTROLLER_IDLE_MINUTES_TO_AUTOSTOP * 60 then false else true
  | none => true

/-- How the target function of the `WrappedProcess` worker finished. -/
inductive RunResult
  | success
  | exn (e : String) (tb : String)
deriving DecidableEq

/-- `WrappedProcess.run`: runs the target; on success sends `None` through
the pipe, on exception sends the exception paired with its formatted
traceback.  The returned value is the message available on the parent end of
the pipe (the `exception` property). -/
def wrapped_process_run : RunResult → Option (String × String)
  | RunResult.success => none
  | RunResult.exn e tb => some (e, tb)

/-- Result of one `BlockingProcessHandler.status_poller` execution:
whether `clean_up` (terminate + join + close) ran, whether the poller
returned early on a terminal signal, whether `launch_done` was set, and the
exception (with traceback) re-raised to the caller, if any. -/
structure PollerResult where
  cleaned : Bool
  early_exit : Bool
  launch_done : Bool
  raised : Option (String × String)
deriving DecidableEq

/-- The code of `status_poller` after the polling loop: reads the worker's
pipe message; if it is an exception the poller cleans up and re-raises it,
otherwise it sets `launch_done` and cleans up. -/
def status_poller_exit (pipe_message : Option (String × String)) : PollerResult :=
  match pipe_message with
  | some e =>
    { cleaned := true, early_exit := false, launch_done := false, raised := some e }
  | none =>
    { cleaned := true, early_exit := false, launch_done := true, raised := none }

/-- `BlockingProcessHandler.status_poller`: while the worker has not exited
(`exit_after` more loop iterations remain), sleep one interval and check the
event handler; on a terminal signal, clean up the worker and return early.
Once the worker has exited, run the exit path on its pipe message.
`events i` is the event-handler state observed at the i-th poll. -/
def status_poller : Nat → (Nat → EventHandler) → Option (String × String) → PollerResult
  | 0, _, pipe_message => status_poller_exit pipe_message
  | Nat.succ k, events, pipe_message =>
    if (events 0).is_terminal then
      { cleaned := true, early_exit := true, launch_done := false, raised := none }
    else
      status_poller k (fun t => events (t + 1)) pipe_message

/-- The fields of `SkyPilotMetadata` (metadata.py is absent; modelled from the
spec's `RemoteJobMetadata`): job name, cluster name, metadata path root,
tracker hostname, launch type. -/
structure SkyPilotMetadata where
  job_name : String
  cluster_name : String
  task_metadata_root : String
  tracker_hostname : String
  job_launch_type : JobLaunchType
deriving DecidableEq

/-- Modelled from the spec: the normalized phases exposed to the host (§4.5). -/
inductive FlytePhase
  | PENDING
  | RUNNING
  | SUCCEEDED
  | FAILED
  | ABORTED
deriving DecidableEq

/-- The `Resource` returned by `SkyPilotAgent.get` (phase and optional
message; the outputs reference is always `None` in `agent.py` and is
omitted). -/
structure Resource where
  phase : FlytePhase
  message : Option String
deriving DecidableEq

/-- Modelled from the spec: the provisioner status vocabulary, which differs
by launch type (§4.5); statuses are the strings stored in the status file. -/
def known_statuses : JobLaunchType → List String
  | JobLaunchType.MANAGED =>
    ["PENDING", "RUNNING", "SUCCEEDED", "FAILED", "CANCELLED"]
  | JobLaunchType.INTERACTIVE =>
    ["INIT", "PENDING", "RUNNING", "SUCCEEDED", "FAILED", "FAILED_SETUP", "CANCELLED"]

/-- Modelled from the spec: `LAUNCH_TYPE_TO_SKY_STATUS` (utils.py is absent):
converts the stored status string into the launch-type-specific provisioner
status; an unknown or unsupported value raises (§4.5: "Unknown/unsupported
statuses raise"). -/
def LAUNCH_TYPE_TO_SKY_STATUS (jt : JobLaunchType) (status : String) :
    Except String String :=
  if status ∈ known_statuses jt then Except.ok status
  else Except.error ("Unsupported status: " ++ status)

/-- Modelled from the spec: `skypilot_status_to_flyte_phase` (utils.py is
absent): maps a provisioner status to a normalized phase. -/
def skypilot_status_to_flyte_phase (status : String) : FlytePhase :=
  if status = "INIT" ∨ status = "PENDING" then FlytePhase.PENDING
  else if status = "RUNNING" then FlytePhase.RUNNING
  else if status = "SUCCEEDED" then FlytePhase.SUCCEEDED
  else if status = "CANCELLED" then FlytePhase.ABORTED
  else FlytePhase.FAILED

/-- `query_job_status`: reconstructs the path setting from the metadata, reads
the stored task status, and converts it through `LAUNCH_TYPE_TO_SKY_STATUS`
for the metadata's launch type.  `stored_status` is the status string read
from the status file. -/
def query_job_status (meta : SkyPilotMetadata) (stored_status : String) :
    Except String String :=
  LAUNCH_TYPE_TO_SKY_STATUS meta.job_launch_type stored_status

/-- `SkyPilotAgent.get`: calls `query_job_status` (with no surrounding
exception handling — a raise propagates to the caller), maps the status to a
phase, and returns a `Resource` whose message is always `None`. -/
def agent_get (meta : SkyPilotMetadata) (stored_status : String) :
    Except String Resource :=
  match query_job_status meta stored_status with
  | Except.error e => Except.error e
  | Except.ok job_status =>
    Except.ok { phase := skypilot_status_to_flyte_phase job_status, message := none }

/-! ## Helper lemmas shared by several proofs -/

/-- `try_first_register` only creates the zip coroutine; it never changes the
Remote Path Registry. -/
lemma try_first_register_remote (s : TrackerState) :
    (try_first_register s).remote = s.remote := by
  unfold try_first_register
  split <;> rfl

/-- `try_first_register` never changes the job registry table. -/
lemma try_first_register_registry (s : TrackerState) :
    (try_first_register s).job_registry = s.job_registry := by
  unfold try_first_register
  split <;> rfl

/-- `try_first_register` is the identity once the job registry is
non-empty. -/
lemma try_first_register_of_nonempty (s : TrackerState)
    (h : s.job_registry.isEmpty = false) : try_first_register s = s := by
  unfold try_first_register
  rw [h]
  rfl

/-- `register_sky_task` when the task id is already marked as created:
the tracker state is only affected by `try_first_register` and the returned
controller is the freshly constructed, unstarted one. -/
lemma register_sky_task_exists (s : TrackerState) (tpl : TaskTemplate)
    (h : task_exists s.remote (unique_id_of tpl) = true) :
    register_sky_task s tpl = (try_first_register s, SkyTaskFuture.init tpl) := by
  unfold register_sky_task
  rw [if_pos]
  rw [try_first_register_remote]
  exact h

/-- `register_sky_task` when the task id is not yet marked as created:
the marker is touched, the controller is started and indexed. -/
lemma register_sky_task_fresh (s : TrackerState) (tpl : TaskTemplate)
    (h : task_exists s.remote (unique_id_of tpl) = false) :
    register_sky_task s tpl =
      ({ try_first_register s with
         remote := touch_task s.remote (unique_id_of tpl)
       , job_registry :=
           (((SkyTaskFuture.init tpl).start true).task_name
           , (SkyTaskFuture.init tpl).start true) :: s.job_registry }
      , (SkyTaskFuture.init tpl).start true) := by
  unfold register_sky_task
  rw [if_neg, try_first_register_remote, try_first_register_registry]
  · rfl
  · rw [try_first_register_remote]
    show ¬ task_exists s.remote (unique_id_of tpl) = true
    rw [h]
    exact Bool.false_ne_true

/-! ## Concrete sample values used in witnesses and counterexamples -/

/-- A sample task template (INTERACTIVE launch on a named cluster). -/
def tplSample : TaskTemplate :=
  { task_name := "taskA"
  , cluster_name := "clusterA"
  , job_launch_type := JobLaunchType.INTERACTIVE
  , raw_output_root := "s3://bucket/out" }

/-- A second sample template on the same cluster as `tplJ1`. -/
def tplJ1 : TaskTemplate :=
  { task_name := "job1"
  , cluster_name := "clusterC2"
  , job_launch_type := JobLaunchType.INTERACTIVE
  , raw_output_root := "s3://bucket/out" }

/-- A second job on the same cluster as `tplJ1`. -/
def tplJ2 : TaskTemplate :=
  { task_name := "job2"
  , cluster_name := "clusterC2"
  , job_launch_type := JobLaunchType.INTERACTIVE
  , raw_output_root := "s3://bucket/out" }

/-- The tracker state of a fresh process: empty registry, no markers. -/
def emptyTracker : TrackerState :=
  { job_registry := []
  , remote := { touched := [] }
  , zip_started := false
  , stops := []
  , warnings := 0 }

/-- Sample resource metadata matching `tplSample`. -/
def metaSample : SkyPilotMetadata :=
  { job_name := "taskA"
  , cluster_name := "clusterA"
  , task_metadata_root := "s3://bucket/out"
  , tracker_hostname := "host1"
  , job_launch_type := JobLaunchType.INTERACTIVE }

/-! ## C2 — liveness check -/

/-- C2 counterexample: the claim says `is_alive` returns false when no
heartbeat was ever written, but `check_remote_agent_alive` returns true when
`last_upload_time` is `None`. -/
theorem check_remote_agent_alive_none_counterexample :
    check_remote_agent_alive 1000 none = true := rfl

/-- C2 (amended): the liveness check returns true when no heartbeat was ever
written; with a recorded heartbeat it returns false exactly when the gap
exceeds the 600-second threshold (so last heartbeat at T-700s gives false and
at T-100s gives true, as the claim states). -/
theorem check_remote_agent_alive_spec (now t : Int) :
    check_remote_agent_alive now none = true
    ∧ (check_remote_agent_alive now (some t) = false ↔ now - t > 600)
    ∧ check_remote_agent_alive 1000 (some 300) = false
    ∧ check_remote_agent_alive 1000 (some 900) = true := by
  refine ⟨rfl, ?_, by decide, by decide⟩
  have hred : check_remote_agent_alive now (some t)
      = if now - t > (600 : Int) then false else true := by
    unfold check_remote_agent_alive CONTROLLER_IDLE_MINUTES_TO_AUTOSTOP
    norm_num
  rw [hred]
  by_cases hc : now - t > (600 : Int)
  · simp [hc]
  · simp [hc]

/-! ## C5 — start() spawns three tasks; status stays INIT -/

/-- C5 counterexample: the claim says `start()` moves the status from INIT to
LAUNCHING; on the code, the status after `start()` is still INIT, not
LAUNCHING. -/
theorem start_no_launching_counterexample :
    ((SkyTaskFuture.init tplSample).start true).task_status = TaskStatus.INIT
    ∧ ((SkyTaskFuture.init tplSample).start true).task_status ≠ TaskStatus.LAUNCHING := by
  decide

/-- C5 (amended): `start()` creates the three concurrent supervised tasks
(the launch worker poller, the deletion-status poller, and the status-upload
heartbeat loop) and installs a fresh event handler and the callback, but it
leaves the controller's TaskStatus unchanged (INIT stays INIT); no transition
to LAUNCHING occurs. -/
theorem start_spawns_three_tasks (f : SkyTaskFuture) (cb : Bool) :
    (f.start cb).launch_coro_created = true
    ∧ (f.start cb).status_check_coro_created = true
    ∧ (f.start cb).status_upload_coro_created = true
    ∧ (f.start cb).has_cancel_callback = cb
    ∧ (f.start cb).event_handler = EventHandler.fresh
    ∧ (f.start cb).task_status = f.task_status :=
  ⟨rfl, rfl, rfl, rfl, rfl, rfl⟩

/-! ## C7 — NotSupportedError during deprovisioning is caught -/

/-- C7: when `sky.stop` raises the provider's NotSupportedError, the error is
caught inside `on_task_deleted` (no propagation: the call returns normally),
one warning is logged, and the job's registry entry is still removed via
`delete_task`. -/
theorem notsupported_stop_caught (s : TrackerState) (d : SkyTaskFuture) :
    on_task_deleted (fun _ => StopResult.notSupported) s d =
      Except.ok
        { s with
          remote := delete_task s.remote d.unique_id
        , stops :=
            if (running_on_cluster s d).isEmpty then d.cluster_name :: s.stops
            else s.stops
        , warnings :=
            if (running_on_cluster s d).isEmpty then s.warnings + 1
            else s.warnings } := by
  unfold on_task_deleted
  split <;> simp_all [Except.map]

/-! ## C8 — Get propagates failures and never attaches a message -/

/-- C8 counterexample: on an unknown remote status value, `SkyPilotAgent.get`
raises to the caller instead of returning a FAILED phase with a message. -/
theorem agent_get_raises_counterexample :
    agent_get metaSample "NOT_A_STATUS"
      = Except.error "Unsupported status: NOT_A_STATUS" := rfl

/-- C8 (amended): `get` performs no internal error handling: it is exactly
the status query followed by the phase mapping, so an unknown or unsupported
remote status raises out of `query_job_status` and propagates to the caller,
and on success the returned resource always carries message `None` — no
explanatory message string is ever attached. -/
theorem agent_get_no_internal_handling (meta : SkyPilotMetadata)
    (stored_status : String) :
    agent_get meta stored_status =
      (query_job_status meta stored_status).map
        (fun job_status =>
          { phase := skypilot_status_to_flyte_phase job_status
          , message := none }) := by
  unfold agent_get
  cases query_job_status meta stored_status <;> rfl

/-! ## C4 — cluster deprovision exactly when the last INIT job leaves -/

/-- C4: `on_task_deleted` triggers `sky.stop` on the deleted task's cluster
exactly when no registry controller with status INIT remains on that cluster,
and always deletes the job's entry in the Remote Path Registry afterwards;
in the two-job scenario on one cluster, the first deletion does not
deprovision the cluster (the other job is still INIT) and the second one
does. -/
theorem stop_iff_no_init_on_cluster :
    (∀ (s : TrackerState) (d : SkyTaskFuture),
      on_task_deleted (fun _ => StopResult.ok) s d =
        Except.ok
          { s with
            remote := delete_task s.remote d.unique_id
          , stops :=
              if (running_on_cluster s d).isEmpty then d.cluster_name :: s.stops
              else s.stops })
    ∧ (let s1 := (register_sky_task emptyTracker tplJ1).1
       let j1 := (register_sky_task emptyTracker tplJ1).2
       let s2 := (register_sky_task s1 tplJ2).1
       let j2 := (register_sky_task s1 tplJ2).2
       let s3 := mark_done s2 j1.task_name
       let s4 : TrackerState := { s3 with remote := delete_task s3.remote j1.unique_id }
       on_task_deleted (fun _ => StopResult.ok) s3 j1 = Except.ok s4
       ∧ s4.stops = []
       ∧ (on_task_deleted (fun _ => StopResult.ok) (mark_done s4 j2.task_name) j2).map
           TrackerState.stops = Except.ok ["clusterC2"]) := by
  constructor
  · intro s d
    unfold on_task_deleted
    split <;> simp_all [Except.map]
  · exact ⟨rfl, rfl, rfl⟩

/-! ## C1 — registering twice launches once -/

/-- C1: starting from a state where the task's touch marker is absent,
registering the same template twice leaves the state of the first
registration untouched (the second call changes nothing and returns a freshly
constructed, unstarted controller), the Remote Path Registry holds exactly
one touch marker for the task id, and both returned controllers carry the
same unique id, hence the same remote job paths. -/
theorem register_twice_no_double_launch (s : TrackerState) (tpl : TaskTemplate)
    (hfresh : task_exists s.remote (unique_id_of tpl) = false) :
    register_sky_task (register_sky_task s tpl).1 tpl
      = ((register_sky_task s tpl).1, SkyTaskFuture.init tpl)
    ∧ (register_sky_task s tpl).1.remote.touched.count (unique_id_of tpl) = 1
    ∧ (SkyTaskFuture.init tpl).unique_id = (register_sky_task s tpl).2.unique_id
    ∧ (SkyTaskFuture.init tpl).launch_coro_created = false
    ∧ (SkyTaskFuture.init tpl).task_status = TaskStatus.INIT := by
  have hmem : unique_id_of tpl ∉ s.remote.touched := by
    simpa [task_exists] using hfresh
  have hstep := register_sky_task_fresh s tpl hfresh
  have htouched : (register_sky_task s tpl).1.remote.touched
      = unique_id_of tpl :: s.remote.touched := by
    rw [hstep]
    simp [touch_task, hmem]
  have hreg1 : (register_sky_task s tpl).1.job_registry
      = (((SkyTaskFuture.init tpl).start true).task_name
        , (SkyTaskFuture.init tpl).start true) :: s.job_registry := by
    rw [hstep]
  have hexists2 : task_exists (register_sky_task s tpl).1.remote (unique_id_of tpl)
      = true := by
    simp [task_exists, htouched]
  refine ⟨?_, ?_, ?_, rfl, rfl⟩
  · rw [register_sky_task_exists (register_sky_task s tpl).1 tpl hexists2]
    rw [try_first_register_of_nonempty]
    rw [hreg1]
    rfl
  · rw [htouched]
    simp [List.count_cons, List.count_eq_zero.mpr hmem]
  · rw [hstep]
    rfl

/-- C1 witness: the double-registration property evaluated on a fresh tracker
and the sample template. -/
theorem register_twice_no_double_launch_witness :
    task_exists emptyTracker.remote (unique_id_of tplSample) = false
    ∧ (register_sky_task (register_sky_task emptyTracker tplSample).1 tplSample
        = ((register_sky_task emptyTracker tplSample).1, SkyTaskFuture.init tplSample)
      ∧ (register_sky_task emptyTracker tplSample).1.remote.touched.count
          (unique_id_of tplSample) = 1
      ∧ (SkyTaskFuture.init tplSample).unique_id
          = (register_sky_task emptyTracker tplSample).2.unique_id
      ∧ (SkyTaskFuture.init tplSample).launch_coro_created = false
      ∧ (SkyTaskFuture.init tplSample).task_status = TaskStatus.INIT) :=
  ⟨by decide, register_twice_no_double_launch emptyTracker tplSample (by decide)⟩

/-! ## C10 — already-existing task: unstarted controller, delete path -/

/-- C10 counterexample: register the sample task twice in one process — the
second call does find the identity already existing in the Remote Path
Registry and returns an unindexed controller — yet a later Delete for that
job takes the in-process cancel path, not the out-of-band remote-deletion
path, because the first call had already indexed the job name. -/
theorem delete_path_after_reregister_counterexample :
    task_exists (register_sky_task emptyTracker tplSample).1.remote
        (unique_id_of tplSample) = true
    ∧ (agent_delete
        (register_sky_task (register_sky_task emptyTracker tplSample).1 tplSample).1
        (task_name_of tplSample)).1 = DeletePath.cancel_in_process
    ∧ DeletePath.cancel_in_process ≠ DeletePath.remote_deletion := by
  refine ⟨rfl, rfl, by decide⟩

/-- C10 (amended): when `register_sky_task` finds the task identity already
existing, the returned controller was never started (status INIT, no
coroutines, no launch process, no callback) and the job registry table is
unchanged; a later Delete for the job takes the out-of-band remote-deletion
path precisely when the job name is absent from the in-process table — if an
earlier register in this process already indexed the name, Delete takes the
in-process cancel path instead. -/
theorem register_exists_unindexed (s : TrackerState) (tpl : TaskTemplate)
    (hex : task_exists s.remote (unique_id_of tpl) = true) :
    (register_sky_task s tpl).1.job_registry = s.job_registry
    ∧ (register_sky_task s tpl).2 = SkyTaskFuture.init tpl
    ∧ (SkyTaskFuture.init tpl).task_status = TaskStatus.INIT
    ∧ (SkyTaskFuture.init tpl).launch_coro_created = false
    ∧ (SkyTaskFuture.init tpl).status_check_coro_created = false
    ∧ (SkyTaskFuture.init tpl).status_upload_coro_created = false
    ∧ (SkyTaskFuture.init tpl).has_cancel_callback = false
    ∧ ((agent_delete (register_sky_task s tpl).1 (task_name_of tpl)).1
          = DeletePath.remote_deletion
        ↔ (s.job_registry.lookup (task_name_of tpl)).isSome = false) := by
  have hstep := register_sky_task_exists s tpl hex
  have hreg : (register_sky_task s tpl).1.job_registry = s.job_registry := by
    rw [hstep]
    exact try_first_register_registry s
  refine ⟨hreg, by rw [hstep], rfl, rfl, rfl, rfl, rfl, ?_⟩
  unfold agent_delete
  rw [hreg]
  by_cases hl : (s.job_registry.lookup (task_name_of tpl)).isSome = true
  · rw [if_pos hl]
    simp [hl]
  · rw [if_neg hl]
    simp only [Bool.not_eq_true] at hl
    simp [hl]

/-- C10 witness: the amended property evaluated on a state whose Remote Path
Registry already holds the sample task's marker. -/
theorem register_exists_unindexed_witness :
    task_exists (register_sky_task emptyTracker tplSample).1.remote
        (unique_id_of tplSample) = true
    ∧ ((register_sky_task (register_sky_task emptyTracker tplSample).1
          tplSample).1.job_registry
        = (register_sky_task emptyTracker tplSample).1.job_registry
      ∧ (register_sky_task (register_sky_task emptyTracker tplSample).1 tplSample).2
          = SkyTaskFuture.init tplSample
      ∧ (SkyTaskFuture.init tplSample).task_status = TaskStatus.INIT
      ∧ (SkyTaskFuture.init tplSample).launch_coro_created = false
      ∧ (SkyTaskFuture.init tplSample).status_check_coro_created = false
      ∧ (SkyTaskFuture.init tplSample).status_upload_coro_created = false
      ∧ (SkyTaskFuture.init tplSample).has_cancel_callback = false
      ∧ ((agent_delete
            (register_sky_task (register_sky_task emptyTracker tplSample).1
              tplSample).1
            (task_name_of tplSample)).1
            = DeletePath.remote_deletion
          ↔ ((register_sky_task emptyTracker tplSample).1.job_registry.lookup
              (task_name_of tplSample)).isSome = false)) :=
  ⟨rfl, register_exists_unindexed (register_sky_task emptyTracker tplSample).1
    tplSample rfl⟩

/-! ## C6 — worker exceptions propagate through the pipe -/

/-- C6: when no terminal signal is observed before the worker exits, the
status poller re-raises exactly the pipe message written by
`WrappedProcess.run` — the exception paired with its formatted traceback —
and never drops it; when the worker finished without an exception, nothing is
raised and the `launch_done` signal is set instead.  In all cases the worker
is cleaned up. -/
theorem worker_exception_propagated (exit_after : Nat)
    (events : Nat → EventHandler) (r : RunResult)
    (hterm : ∀ i, i < exit_after → (events i).is_terminal = false) :
    (status_poller exit_after events (wrapped_process_run r)).raised
        = wrapped_process_run r
    ∧ (status_poller exit_after events (wrapped_process_run r)).launch_done
        = (wrapped_process_run r).isNone
    ∧ (status_poller exit_after events (wrapped_process_run r)).cleaned = true := by
  induction exit_after generalizing events with
  | zero =>
    cases r <;> exact ⟨rfl, rfl, rfl⟩
  | succ k ih =>
    have h0 : (events 0).is_terminal = false := hterm 0 (Nat.succ_pos k)
    have hrec := ih (fun t => events (t + 1))
      (fun i hi => hterm (i + 1) (Nat.succ_lt_succ hi))
    unfold status_poller
    rw [h0]
    simpa using hrec

/-- C6 witness: a worker that raised is re-raised after two clean polls. -/
theorem worker_exception_propagated_witness :
    (∀ i, i < 2 → ((fun _ => EventHandler.fresh) i).is_terminal = false)
    ∧ ((status_poller 2 (fun _ => EventHandler.fresh)
          (wrapped_process_run (RunResult.exn "boom" "trace"))).raised
        = wrapped_process_run (RunResult.exn "boom" "trace")
      ∧ (status_poller 2 (fun _ => EventHandler.fresh)
          (wrapped_process_run (RunResult.exn "boom" "trace"))).launch_done
        = (wrapped_process_run (RunResult.exn "boom" "trace")).isNone
      ∧ (status_poller 2 (fun _ => EventHandler.fresh)
          (wrapped_process_run (RunResult.exn "boom" "trace"))).cleaned = true) :=
  ⟨fun _ _ => rfl
  , worker_exception_propagated 2 (fun _ => EventHandler.fresh)
      (RunResult.exn "boom" "trace") (fun _ _ => rfl)⟩

/-! ## C9 — terminal signal before worker exit cleans up the worker -/

/-- C9: if a terminal signal is observed at some poll before the worker has
exited, the status poller takes the early-exit path: it terminates, joins and
closes the worker (`clean_up`) before returning, raises nothing, and leaves
`launch_done` unset. -/
theorem terminal_before_exit_cleans (exit_after : Nat)
    (events : Nat → EventHandler) (pipe_message : Option (String × String))
    (i : Nat) (hi : i < exit_after) (hterm : (events i).is_terminal = true) :
    (status_poller exit_after events pipe_message).cleaned = true
    ∧ (status_poller exit_after events pipe_message).early_exit = true
    ∧ (status_poller exit_after events pipe_message).raised = none
    ∧ (status_poller exit_after events pipe_message).launch_done = false := by
  induction exit_after generalizing events i with
  | zero => exact absurd hi (Nat.not_lt_zero i)
  | succ k ih =>
    by_cases h0 : (events 0).is_terminal = true
    · unfold status_poller
      rw [h0]
      exact ⟨rfl, rfl, rfl, rfl⟩
    · have hi0 : i ≠ 0 := fun h => h0 (h ▸ hterm)
      obtain ⟨j, rfl⟩ := Nat.exists_eq_succ_of_ne_zero hi0
      have hrec := ih (fun t => events (t + 1)) j
        (Nat.lt_of_succ_lt_succ hi) hterm
      unfold status_poller
      rw [Bool.of_not_eq_true h0]
      simpa using hrec

/-- C9 witness: a cancel signal arriving at the second poll, three polls
before the worker would exit, cleans up and exits early. -/
theorem terminal_before_exit_cleans_witness :
    1 < 3
    ∧ (((fun t => if 1 ≤ t then
          { EventHandler.fresh with cancel := true } else EventHandler.fresh)
            (1 : Nat)).is_terminal = true)
    ∧ ((status_poller 3 (fun t => if 1 ≤ t then
          { EventHandler.fresh with cancel := true } else EventHandler.fresh)
          none).cleaned = true
      ∧ (status_poller 3 (fun t => if 1 ≤ t then
          { EventHandler.fresh with cancel := true } else EventHandler.fresh)
          none).early_exit = true
      ∧ (status_poller 3 (fun t => if 1 ≤ t then
          { EventHandler.fresh with cancel := true } else EventHandler.fresh)
          none).raised = none
      ∧ (status_poller 3 (fun t => if 1 ≤ t then
          { EventHandler.fresh with cancel := true } else EventHandler.fresh)
          none).launch_done = false) :=
  ⟨by decide, by decide
  , terminal_before_exit_cleans 3
      (fun t => if 1 ≤ t then
        { EventHandler.fresh with cancel := true } else EventHandler.fresh)
      none 1 (by decide) (by decide)⟩

/-! ## C3 — DONE at most once, teardown exactly once -/

/-- One done-callback invocation turns the event handler terminal exactly
when it already was terminal or the invocation introduces a terminal
signal. -/
lemma stepEvents_terminal (e : EventHandler) (o : CoroOutcome) (c : Bool) :
    (stepEvents e o c).is_terminal = (e.is_terminal || terminalStep (o, c)) := by
  cases o <;> cases c <;>
    simp [stepEvents, EventHandler.is_terminal, terminalStep]

/-- `launch_failed_callback` never changes the callback registration. -/
lemma launch_failed_callback_hcb (f : SkyTaskFuture) (o : CoroOutcome)
    (c : Bool) :
    (launch_failed_callback f o c).1.has_cancel_callback
      = f.has_cancel_callback := by
  unfold launch_failed_callback
  split <;> rfl

/-- A controller already DONE is untouched by the check-and-set: the status
stays DONE and the teardown callback does not fire. -/
lemma launch_failed_callback_done (f : SkyTaskFuture) (o : CoroOutcome)
    (c : Bool) (h : f.task_status = TaskStatus.DONE) :
    (launch_failed_callback f o c).1.task_status = TaskStatus.DONE
    ∧ (launch_failed_callback f o c).2 = false := by
  unfold launch_failed_callback
  rw [if_neg]
  · exact ⟨h, rfl⟩
  · intro hc
    rw [h] at hc
    exact absurd hc.1 (by decide)

/-- If the teardown callback fired, the invocation set the status to DONE. -/
lemma launch_failed_callback_fired (f : SkyTaskFuture) (o : CoroOutcome)
    (c : Bool) (h : (launch_failed_callback f o c).2 = true) :
    (launch_failed_callback f o c).1.task_status = TaskStatus.DONE := by
  unfold launch_failed_callback at h ⊢
  by_cases hc : f.task_status = TaskStatus.INIT
      ∧ (stepEvents f.event_handler o c).is_terminal = true
  · rw [if_pos hc]
  · rw [if_neg hc] at h
    exact absurd h Bool.false_ne_true

/-- On an INIT controller whose event handler is not yet terminal, a
non-terminal invocation leaves the status INIT, the handler non-terminal, and
does not fire the callback. -/
lemma launch_failed_callback_clean (f : SkyTaskFuture) (o : CoroOutcome)
    (c : Bool) (hI : f.task_status = TaskStatus.INIT)
    (hT : f.event_handler.is_terminal = false)
    (hs : terminalStep (o, c) = false) :
    (launch_failed_callback f o c).1.task_status = TaskStatus.INIT
    ∧ (launch_failed_callback f o c).1.event_handler.is_terminal = false
    ∧ (launch_failed_callback f o c).2 = false := by
  have hterm : (stepEvents f.event_handler o c).is_terminal = false := by
    rw [stepEvents_terminal, hT, hs]
    rfl
  unfold launch_failed_callback
  rw [if_neg]
  · exact ⟨hI, hterm, rfl⟩
  · intro hc
    rw [hterm] at hc
    exact absurd hc.2 (by decide)

/-- On an INIT controller, an invocation that introduces a terminal signal
sets the status to DONE and fires the callback exactly when one is
registered. -/
lemma launch_failed_callback_terminal (f : SkyTaskFuture) (o : CoroOutcome)
    (c : Bool) (hI : f.task_status = TaskStatus.INIT)
    (hs : terminalStep (o, c) = true) :
    (launch_failed_callback f o c).1.task_status = TaskStatus.DONE
    ∧ (launch_failed_callback f o c).2 = f.has_cancel_callback := by
  have hterm : (stepEvents f.event_handler o c).is_terminal = true := by
    rw [stepEvents_terminal, hs]
    exact Bool.or_true _
  unfold launch_failed_callback
  rw [if_pos ⟨hI, hterm⟩]
  exact ⟨rfl, rfl⟩

/-- Once DONE, a controller stays DONE through any further callback
invocations, none of which fires the teardown callback again. -/
lemma runCallbacks_done (f : SkyTaskFuture)
    (trace : List (CoroOutcome × Bool)) (h : f.task_status = TaskStatus.DONE) :
    (runCallbacks f trace).1.task_status = TaskStatus.DONE
    ∧ (runCallbacks f trace).2 = 0 := by
  induction trace generalizing f with
  | nil => exact ⟨h, rfl⟩
  | cons st rest ih =>
    have hstep := launch_failed_callback_done f st.1 st.2 h
    have hrec := ih (launch_failed_callback f st.1 st.2).1 hstep.1
    unfold runCallbacks
    simp [hstep.2, hrec.1, hrec.2]

/-- The teardown callback fires at most once over any invocation
sequence. -/
lemma runCallbacks_le_one (f : SkyTaskFuture)
    (trace : List (CoroOutcome × Bool)) :
    (runCallbacks f trace).2 ≤ 1 := by
  induction trace generalizing f with
  | nil => exact Nat.zero_le 1
  | cons st rest ih =>
    unfold runCallbacks
    by_cases hf : (launch_failed_callback f st.1 st.2).2 = true
    · have hdone := launch_failed_callback_fired f st.1 st.2 hf
      have hrest := runCallbacks_done (launch_failed_callback f st.1 st.2).1
        rest hdone
      simp [hf, hrest.2]
    · have hf0 : (launch_failed_callback f st.1 st.2).2 = false :=
        Bool.of_not_eq_true hf
      simpa [hf0] using ih (launch_failed_callback f st.1 st.2).1

/-- Splitting an invocation sequence splits the run. -/
lemma runCallbacks_append (f : SkyTaskFuture)
    (t1 t2 : List (CoroOutcome × Bool)) :
    runCallbacks f (t1 ++ t2)
      = ((runCallbacks (runCallbacks f t1).1 t2).1
        , (runCallbacks f t1).2 + (runCallbacks (runCallbacks f t1).1 t2).2) := by
  induction t1 generalizing f with
  | nil => simp [runCallbacks]
  | cons st rest ih =>
    show runCallbacks f ((st :: rest) ++ t2) = _
    rw [List.cons_append]
    have h1 : runCallbacks f (st :: (rest ++ t2))
        = ((runCallbacks (launch_failed_callback f st.1 st.2).1 (rest ++ t2)).1
          , (if (launch_failed_callback f st.1 st.2).2 then 1 else 0)
            + (runCallbacks (launch_failed_callback f st.1 st.2).1 (rest ++ t2)).2) :=
      rfl
    have h2 : runCallbacks f (st :: rest)
        = ((runCallbacks (launch_failed_callback f st.1 st.2).1 rest).1
          , (if (launch_failed_callback f st.1 st.2).2 then 1 else 0)
            + (runCallbacks (launch_failed_callback f st.1 st.2).1 rest).2) :=
      rfl
    rw [h1, ih (launch_failed_callback f st.1 st.2).1, h2]
    simp [Nat.add_assoc]

/-- From a clean INIT controller with a registered callback, the teardown
fires exactly once as soon as the sequence contains a terminal-introducing
invocation. -/
lemma runCallbacks_eq_one (f : SkyTaskFuture)
    (trace : List (CoroOutcome × Bool)) (hcb : f.has_cancel_callback = true)
    (hI : f.task_status = TaskStatus.INIT)
    (hT : f.event_handler.is_terminal = false)
    (hex : ∃ st ∈ trace, terminalStep st = true) :
    (runCallbacks f trace).2 = 1 := by
  induction trace generalizing f with
  | nil => exact absurd hex (by simp)
  | cons st rest ih =>
    by_cases hs : terminalStep st = true
    · have hstep := launch_failed_callback_terminal f st.1 st.2 hI hs
      have hfired : (launch_failed_callback f st.1 st.2).2 = true :=
        hstep.2.trans hcb
      have hrest := runCallbacks_done (launch_failed_callback f st.1 st.2).1
        rest hstep.1
      unfold runCallbacks
      simp [hfired, hrest.2]
    · have hs0 : terminalStep st = false := Bool.of_not_eq_true hs
      have hclean := launch_failed_callback_clean f st.1 st.2 hI hT hs0
      have hcb1 := launch_failed_callback_hcb f st.1 st.2
      have hex1 : ∃ st0 ∈ rest, terminalStep st0 = true := by
        rcases hex with ⟨st0, hmem, hst0⟩
        rcases List.mem_cons.mp hmem with h | h
        · exact absurd (h ▸ hst0) (by rw [hs0]; exact Bool.false_ne_true)
        · exact ⟨st0, h, hst0⟩
      have hrec := ih (launch_failed_callback f st.1 st.2).1
        (hcb1.trans hcb) hclean.1 hclean.2.1 hex1
      unfold runCallbacks
      simp [hclean.2.2, hrec]

/-- C3: with a registered teardown callback, over any sequence of
done-callback invocations the callback fires at most once; a controller
observed DONE after a prefix is still DONE after any continuation (no
transition out of DONE); and from a clean INIT controller the callback fires
exactly once as soon as some invocation introduces a terminal signal — in
particular when several terminal signals (failed and cancel) get set. -/
theorem done_once_teardown_once (f : SkyTaskFuture)
    (trace tail : List (CoroOutcome × Bool))
    (hcb : f.has_cancel_callback = true)
    (hI : f.task_status = TaskStatus.INIT)
    (hT : f.event_handler.is_terminal = false) :
    (runCallbacks f trace).2 ≤ 1
    ∧ ((runCallbacks f trace).1.task_status = TaskStatus.DONE →
        (runCallbacks f (trace ++ tail)).1.task_status = TaskStatus.DONE)
    ∧ ((∃ st ∈ trace, terminalStep st = true) →
        (runCallbacks f trace).2 = 1) := by
  refine ⟨runCallbacks_le_one f trace, ?_, ?_⟩
  · intro hdone
    rw [runCallbacks_append]
    exact (runCallbacks_done (runCallbacks f trace).1 tail hdone).1
  · exact runCallbacks_eq_one f trace hcb hI hT

/-- C3 witness: a started controller whose launch coroutine raised and whose
deletion poller was then cancelled — both `failed` and `cancel` terminal
signals get set — fires the teardown exactly once, and the DONE status
persists. -/
theorem done_once_teardown_once_witness :
    ((SkyTaskFuture.init tplSample).start true).has_cancel_callback = true
    ∧ ((SkyTaskFuture.init tplSample).start true).task_status = TaskStatus.INIT
    ∧ ((SkyTaskFuture.init tplSample).start true).event_handler.is_terminal = false
    ∧ ((runCallbacks ((SkyTaskFuture.init tplSample).start true)
          [(CoroOutcome.raised, false), (CoroOutcome.cancelled, true)]).2 ≤ 1
      ∧ ((runCallbacks ((SkyTaskFuture.init tplSample).start true)
            [(CoroOutcome.raised, false), (CoroOutcome.cancelled, true)]).1.task_status
            = TaskStatus.DONE →
          (runCallbacks ((SkyTaskFuture.init tplSample).start true)
            ([(CoroOutcome.raised, false), (CoroOutcome.cancelled, true)]
              ++ [(CoroOutcome.normal, true)])).1.task_status = TaskStatus.DONE)
      ∧ ((∃ st ∈ [((CoroOutcome.raised : CoroOutcome), false)
            , (CoroOutcome.cancelled, true)], terminalStep st = true) →
          (runCallbacks ((SkyTaskFuture.init tplSample).start true)
            [(CoroOutcome.raised, false), (CoroOutcome.cancelled, true)]).2 = 1)) :=
  ⟨rfl, rfl, rfl
  , done_once_teardown_once ((SkyTaskFuture.init tplSample).start true)
      [(CoroOutcome.raised, false), (CoroOutcome.cancelled, true)]
      [(CoroOutcome.normal, true)] rfl rfl rfl⟩

end SkyAgent
